import Mathlib

/-!
Verification development for the dealer-to-prospect matching and scoring
pipeline of the woodhouse_creative repository.

Shallow embeddings of:
* `scripts/match-allied-to-prospects.py` — namespace `Matcher`
* `scripts/build-prospect-data.py` — namespace `BuildProspect`
* `scripts/build-pe-allied-dealers.py` — namespace `BuildAllied`
* `scripts/import_excel.py` — namespace `ImportExcel`

Modelling conventions: Python `None` is `Option.none`; Python floats are `ℚ`
(every number the pipeline manipulates in the proved statements is exactly
representable); Python dicts are association lists with first-key lookup;
Python sets are lists under membership; per-script global state is threaded
explicitly.
-/

/-!
Executable models of the Python `str` methods the scripts use, written
over `List Char` (Lean's own `String` position-based primitives do not
reduce inside the kernel, which the concrete witnesses need). All inputs in
this pipeline are ASCII.
-/
namespace PyStr

/-- Python `str.strip()`. -/
def strip (s : String) : String :=
  ((s.toList.dropWhile Char.isWhitespace).reverse.dropWhile Char.isWhitespace).reverse.asString

/-- Python `str.lower()`. -/
def lower (s : String) : String := (s.toList.map Char.toLower).asString

/-- Python `str.upper()`. -/
def upper (s : String) : String := (s.toList.map Char.toUpper).asString

/-- Python `str.startswith(pre)`. -/
def startswith (s pre : String) : Bool := pre.toList.isPrefixOf s.toList

/-- Python slicing `s[n:]`. -/
def dropn (s : String) (n : Nat) : String := (s.toList.drop n).asString

/-- Python `c in s` for a single character. -/
def containsChar (s : String) (c : Char) : Bool := s.toList.contains c

/-- Worker for `splitOn`: `acc` is the reversed current piece; each step
consumes at least one character, so `fuel` bounds the recursion. -/
def splitOnAux (sep : List Char) : Nat → List Char → List Char → List (List Char)
  | 0, acc, cs => [(acc.reverse ++ cs)]
  | _ + 1, acc, [] => [acc.reverse]
  | fuel + 1, acc, c :: cs =>
    if sep.isPrefixOf (c :: cs) then
      acc.reverse :: splitOnAux sep fuel [] ((c :: cs).drop sep.length)
    else
      splitOnAux sep fuel (c :: acc) cs

/-- Python `str.split(sep)` for a non-empty separator (empty pieces kept). -/
def splitOn (s sep : String) : List String :=
  if sep = "" then [s]
  else (splitOnAux sep.toList (s.length + 1) [] s.toList).map List.asString

/-- Worker for whitespace `split()`: drop a whitespace run, take a word,
repeat. -/
def wordsAux : Nat → List Char → List (List Char)
  | 0, _ => []
  | fuel + 1, cs =>
    match cs.dropWhile Char.isWhitespace with
    | [] => []
    | c :: rest => (c :: rest.takeWhile (fun x => !x.isWhitespace)) ::
        wordsAux fuel (rest.dropWhile (fun x => !x.isWhitespace))

/-- Python `str.split()` (no argument): whitespace runs, empties dropped. -/
def words (s : String) : List String := (wordsAux (s.length + 1) s.toList).map List.asString

/-- Digit-string to number (the strings are pre-checked to be all digits). -/
def toNat (s : String) : Nat := s.toList.foldl (fun n c => 10 * n + (c.toNat - '0'.toNat)) 0

end PyStr

namespace Matcher

/-- One prospect record as consumed by `run_matching`
(`p["id"]` and `p.get("title", "")`). -/
structure Prospect where
  id : String
  title : String

/-- `normalize_phone` (match-allied-to-prospects.py lines 34-44): strip to
digits, drop a leading country-code `1` when 11 digits remain, accept only
exactly 10 digits. `None`/empty input (Python falsy) gives `None`. -/
def normalize_phone (raw : Option String) : Option String :=
  match raw with
  | none => none
  | some r =>
    if r = "" then none
    else
      let digits := r.toList.filter Char.isDigit
      let digits := if digits.length = 11 && decide (digits.take 1 = ['1']) then digits.drop 1 else digits
      if digits.length = 10 then some digits.asString else none

/-- Host extraction modelling CPython `urlparse(s).hostname or ""` for the
strings `extract_domain` feeds it (a lowercased string, scheme-prefixed when
it did not start with `http`): the netloc is what follows the first `://` up
to the first `/`, `?` or `#`; the hostname drops userinfo (after the last
`@`) and the port (after the first `:` of the host part). Inputs here are
already lowercase, and IPv6 bracket hosts do not occur in this data. -/
def urlHostname (s : String) : String :=
  match PyStr.splitOn s "://" with
  | [] => ""
  | [_] => ""
  | _ :: first :: rest =>
    let tail := String.intercalate "://" (first :: rest)
    let netloc := (tail.toList.takeWhile (fun c => c ≠ '/' && c ≠ '?' && c ≠ '#')).asString
    let hostinfo := (PyStr.splitOn netloc "@").getLastD ""
    (PyStr.splitOn hostinfo ":").headD ""

/-- `extract_domain` (lines 47-66): lowercase/trim, prepend a scheme when the
string does not start with `http`, take the URL host, strip `www.`, require a
dot and length at least 4, else `None`. -/
def extract_domain (raw : Option String) : Option String :=
  match raw with
  | none => none
  | some r =>
    if r = "" then none
    else
      let s := PyStr.lower (PyStr.strip r)
      let s := if PyStr.startswith s "http" then s else "http://" ++ s
      let host := urlHostname s
      let host := if PyStr.startswith host "www." then PyStr.dropn host 4 else host
      if ¬ PyStr.containsChar host '.' || host.length < 4 then none else some host

/-- `normalize_state` (lines 69-79): trim, uppercase, strip a `US-` ISO
country code. The source returns `s` both when `len(s) == 2` and otherwise,
which the embedding mirrors. -/
def normalize_state (raw : Option String) : Option String :=
  match raw with
  | none => none
  | some r =>
    if r = "" then none
    else
      let s := PyStr.upper (PyStr.strip r)
      let s := if PyStr.startswith s "US-" then PyStr.dropn s 3 else s
      if s.length = 2 then some s else some s

/-- The alternatives of `SUFFIX_PATTERN` (lines 82-88) in regex order;
`a/?c` is the greedy pair `a/c`, `ac`. -/
def suffixAlts : List String :=
  ["inc", "incorporated", "llc", "ltd", "limited", "corp", "corporation",
   "co", "company", "enterprises", "enterprise", "services", "service",
   "heating", "cooling", "air conditioning", "a/c", "ac", "hvac",
   "plumbing", "mechanical", "and", "&"]

/-- Python regex `\w` (for the ASCII data this pipeline carries). -/
def isWordChar (c : Char) : Bool := c.isAlphanum || c = '_'

/-- A `\b` word boundary between two (possibly absent) adjacent characters. -/
def isBoundary (a b : Option Char) : Bool :=
  (match a with | none => false | some c => isWordChar c)
    != (match b with | none => false | some c => isWordChar c)

/-- Try one alternative of `\b(...)\b\.?` at the current position: the
literal must be a prefix, both `\b` must hold, and a trailing `.` is
consumed greedily. Returns the number of characters consumed. -/
def altMatchLen (prev : Option Char) (cs : List Char) (w : List Char) : Option Nat :=
  match w.head?, w.getLast? with
  | some wf, some wl =>
    if w.isPrefixOf cs then
      let rest := cs.drop w.length
      if isBoundary prev (some wf) && isBoundary (some wl) rest.head? then
        some (w.length + (if rest.head? = some '.' then 1 else 0))
      else none
    else none
  | _, _ => none

/-- Attempt `SUFFIX_PATTERN` at the current position, trying alternatives in
regex order (Python `re` alternation is first-match, with the word
boundaries doing the disambiguation). -/
def matchSuffixAt (prev : Option Char) (cs : List Char) : Option Nat :=
  suffixAlts.findSome? (fun w => altMatchLen prev cs w.toList)

/-- `SUFFIX_PATTERN.sub(" ", s)` as a left-to-right scan: at each position
either replace a pattern match by a single space and resume after it, or
emit the character. Fuel is an upper bound on the number of steps; each step
consumes at least one character. -/
def subSuffixAux : Nat → Option Char → List Char → List Char
  | 0, _, cs => cs
  | _ + 1, _, [] => []
  | fuel + 1, prev, c :: cs =>
    match matchSuffixAt prev (c :: cs) with
    | some n => ' ' :: subSuffixAux fuel ((c :: cs).take n).getLast? ((c :: cs).drop n)
    | none => c :: subSuffixAux fuel (some c) cs

/-- `SUFFIX_PATTERN.sub(" ", s)`. -/
def sub_suffix (s : String) : String :=
  (subSuffixAux (s.length + 1) none s.toList).asString

/-- `normalize_name` (lines 90-103): lowercase and trim, remove the suffix
vocabulary, drop remaining punctuation (`[^\w\s]`), collapse whitespace;
empty result is `None`. -/
def normalize_name (raw : Option String) : Option String :=
  match raw with
  | none => none
  | some r =>
    if r = "" then none
    else
      let s := PyStr.strip (PyStr.lower r)
      let s := sub_suffix s
      let s := (s.toList.filter (fun c => isWordChar c || c.isWhitespace)).asString
      let s := String.intercalate " " (PyStr.words s)
      if s = "" then none else some s

/-- A lookup index (Python dict built by `defaultdict(list)`): key present
iff `lookup` is `some`. -/
abbrev Index := List (String × List Prospect)

/-- The tier-4 index keyed by (normalized name, lowercased city, state). -/
abbrev NcsIndex := List ((String × String × String) × List Prospect)

/-- One row of the high-confidence output CSV (lines 188-196 and peers). -/
structure MatchRecord where
  dealer_no : String
  dealer_name : String
  allied_segment : String
  prospect_id : String
  prospect_title : String
  match_reason : String
  matched_value : String

/-- One row of the fuzzy-sample output CSV (lines 292-304). -/
structure FuzzyRecord where
  dealer_no : String
  dealer_name : String
  allied_segment : String
  prospect_id : String
  prospect_title : String
  match_reason : String
  matched_value : String
  name_allied_norm : String
  name_prospect_norm : Option String
  city : String
  state : String

/-- One row of the ambiguous output CSV (lines 201-209 and peers). -/
structure AmbiguousRecord where
  dealer_no : String
  dealer_name : String
  allied_segment : String
  match_reason : String
  matched_value : String
  candidate_count : Nat
  candidate_titles : String

/-- The counters accumulated in `stats` (a `defaultdict(int)` with this
fixed key set). -/
structure Stats where
  phone_exact : Nat
  phone_ambiguous : Nat
  email_exact : Nat
  email_ambiguous : Nat
  domain_exact : Nat
  domain_ambiguous : Nat
  name_city_state : Nat
  name_city_state_ambiguous : Nat
  unmatched : Nat

/-- The mutable loop state of `run_matching` (lines 169-173):
output lists, stats, and the `already_matched_prospects` set. -/
structure MatchState where
  high_confidence : List MatchRecord
  fuzzy : List FuzzyRecord
  ambiguous : List AmbiguousRecord
  stats : Stats
  consumed : List String

/-- One allied dealer as consumed by `run_matching`
(`dealer["dealer_no"]` is required, the rest via `.get`). -/
structure Dealer where
  dealer_no : String
  dealer_name : Option String := none
  allied_segment : Option String := none
  contact_phone : Option String := none
  contact_email : Option String := none
  dealer_website : Option String := none
  city : Option String := none
  state : Option String := none

/-- `"; ".join(c.get("title", "") for c in candidates[:5])`. -/
def candidateTitles (cands : List Prospect) : String :=
  String.intercalate "; " ((cands.take 5).map (fun c => c.title))

/-- A resolved high-confidence row for dealer `d` and prospect `p`. -/
def hcRecord (d : Dealer) (p : Prospect) (reason value : String) : MatchRecord :=
  { dealer_no := d.dealer_no
    dealer_name := d.dealer_name.getD ""
    allied_segment := d.allied_segment.getD ""
    prospect_id := p.id
    prospect_title := p.title
    match_reason := reason
    matched_value := value }

/-- An ambiguous row for dealer `d` with the surviving candidate list. -/
def ambRecord (d : Dealer) (reason value : String) (cands : List Prospect) : AmbiguousRecord :=
  { dealer_no := d.dealer_no
    dealer_name := d.dealer_name.getD ""
    allied_segment := d.allied_segment.getD ""
    match_reason := reason
    matched_value := value
    candidate_count := cands.length
    candidate_titles := candidateTitles cands }

/-- `stats["unmatched"] += 1` (line 312, reached when `matched` stayed false). -/
def bumpUnmatched (st : MatchState) : MatchState :=
  { st with stats := { st.stats with unmatched := st.stats.unmatched + 1 } }

/-- Tier 2 (name + city + state, lines 284-312): a unique un-consumed
candidate appends a fuzzy row (and deliberately does not consume the
prospect); two or more candidates only bump the
`name_city_state_ambiguous` counter, leaving `matched` false so the dealer
also counts as unmatched; otherwise unmatched. -/
def nameTier (ncs_idx : NcsIndex) (st : MatchState) (d : Dealer) : MatchState :=
  let dname := d.dealer_name.getD ""
  let dc := PyStr.lower (PyStr.strip (d.city.getD ""))
  match normalize_name (some dname), normalize_state d.state with
  | some dn, some ds =>
    if dc = "" ∨ ds = "" then bumpUnmatched st
    else
      match ncs_idx.lookup (dn, dc, ds) with
      | none => bumpUnmatched st
      | some lst =>
        let candidates := lst.filter (fun c => !(st.consumed.contains c.id))
        match candidates with
        | [p] =>
          { st with
            fuzzy := st.fuzzy ++ [{
              dealer_no := d.dealer_no
              dealer_name := dname
              allied_segment := d.allied_segment.getD ""
              prospect_id := p.id
              prospect_title := p.title
              match_reason := "name_city_state"
              matched_value := dn ++ " | " ++ dc ++ " | " ++ ds
              name_allied_norm := dn
              name_prospect_norm := normalize_name (some p.title)
              city := dc
              state := ds }]
            stats := { st.stats with name_city_state := st.stats.name_city_state + 1 } }
        | [] => bumpUnmatched st
        | _ :: _ :: _ =>
          { st with stats := { st.stats with
              name_city_state_ambiguous := st.stats.name_city_state_ambiguous + 1
              unmatched := st.stats.unmatched + 1 } }
  | _, _ => bumpUnmatched st

/-- Tier 1 domain (lines 250-282); falls through to `nameTier`. -/
def domainTier (domain_idx : Index) (ncs_idx : NcsIndex) (st : MatchState) (d : Dealer) :
    MatchState :=
  match extract_domain d.dealer_website with
  | none => nameTier ncs_idx st d
  | some dd =>
    match domain_idx.lookup dd with
    | none => nameTier ncs_idx st d
    | some lst =>
      let candidates := lst.filter (fun c => !(st.consumed.contains c.id))
      match candidates with
      | [p] =>
        { st with
          high_confidence := st.high_confidence ++ [hcRecord d p "domain_exact" dd]
          consumed := p.id :: st.consumed
          stats := { st.stats with domain_exact := st.stats.domain_exact + 1 } }
      | [] => nameTier ncs_idx st d
      | _ :: _ :: _ =>
        { st with
          ambiguous := st.ambiguous ++ [ambRecord d "domain_exact" dd candidates]
          stats := { st.stats with domain_ambiguous := st.stats.domain_ambiguous + 1 } }

/-- Tier 1 email (lines 216-248); falls through to `domainTier`. -/
def emailTier (email_idx domain_idx : Index) (ncs_idx : NcsIndex) (st : MatchState)
    (d : Dealer) : MatchState :=
  let de := PyStr.lower (PyStr.strip (d.contact_email.getD ""))
  if de = "" then domainTier domain_idx ncs_idx st d
  else
    match email_idx.lookup de with
    | none => domainTier domain_idx ncs_idx st d
    | some lst =>
      let candidates := lst.filter (fun c => !(st.consumed.contains c.id))
      match candidates with
      | [p] =>
        { st with
          high_confidence := st.high_confidence ++ [hcRecord d p "email_exact" de]
          consumed := p.id :: st.consumed
          stats := { st.stats with email_exact := st.stats.email_exact + 1 } }
      | [] => domainTier domain_idx ncs_idx st d
      | _ :: _ :: _ =>
        { st with
          ambiguous := st.ambiguous ++ [ambRecord d "email_exact" de candidates]
          stats := { st.stats with email_ambiguous := st.stats.email_ambiguous + 1 } }

/-- Tier 1 phone (lines 182-214) — the whole per-dealer loop body of
`run_matching`; falls through to `emailTier`. -/
def phoneTier (phone_idx email_idx domain_idx : Index) (ncs_idx : NcsIndex) (st : MatchState)
    (d : Dealer) : MatchState :=
  match normalize_phone d.contact_phone with
  | none => emailTier email_idx domain_idx ncs_idx st d
  | some dp =>
    match phone_idx.lookup dp with
    | none => emailTier email_idx domain_idx ncs_idx st d
    | some lst =>
      let candidates := lst.filter (fun c => !(st.consumed.contains c.id))
      match candidates with
      | [p] =>
        { st with
          high_confidence := st.high_confidence ++ [hcRecord d p "phone_exact" dp]
          consumed := p.id :: st.consumed
          stats := { st.stats with phone_exact := st.stats.phone_exact + 1 } }
      | [] => emailTier email_idx domain_idx ncs_idx st d
      | _ :: _ :: _ =>
        { st with
          ambiguous := st.ambiguous ++ [ambRecord d "phone_exact" dp candidates]
          stats := { st.stats with phone_ambiguous := st.stats.phone_ambiguous + 1 } }

/-- The initial loop state of `run_matching`. -/
def initState : MatchState :=
  { high_confidence := []
    fuzzy := []
    ambiguous := []
    stats := ⟨0, 0, 0, 0, 0, 0, 0, 0, 0⟩
    consumed := [] }

/-- The full loop of `run_matching` (lines 167-314), returning the final
state. -/
def runMatching (allied : List Dealer) (phone_idx email_idx domain_idx : Index)
    (ncs_idx : NcsIndex) : MatchState :=
  allied.foldl (fun st d => phoneTier phone_idx email_idx domain_idx ncs_idx st d) initState

/-- `run_matching`: the tuple the Python function returns. -/
def run_matching (allied : List Dealer) (phone_idx email_idx domain_idx : Index)
    (ncs_idx : NcsIndex) :
    List MatchRecord × List FuzzyRecord × List AmbiguousRecord × Stats :=
  let st := runMatching allied phone_idx email_idx domain_idx ncs_idx
  (st.high_confidence, st.fuzzy, st.ambiguous, st.stats)

end Matcher

namespace BuildProspect

/-- Proleptic-Gregorian leap year, as `datetime` uses. -/
def isLeap (y : ℕ) : Bool := y % 4 = 0 && (y % 100 ≠ 0 || y % 400 = 0)

/-- Days in a month of year `y` (months numbered 1-12). -/
def daysInMonth (y m : ℕ) : ℕ :=
  match m with
  | 1 => 31
  | 2 => if isLeap y then 29 else 28
  | 3 => 31
  | 4 => 30
  | 5 => 31
  | 6 => 30
  | 7 => 31
  | 8 => 31
  | 9 => 30
  | 10 => 31
  | 11 => 30
  | 12 => 31
  | _ => 0

/-- Days in year `y` before month `m`. -/
def daysBeforeMonth (y m : ℕ) : ℕ :=
  (List.range (m - 1)).foldl (fun a i => a + daysInMonth y (i + 1)) 0

/-- `datetime.toordinal`: day number of the proleptic Gregorian calendar
(0001-01-01 is day 1). `datetime` subtraction of two midnight dates gives
exactly the difference of these ordinals. -/
def dateOrdinal (y m d : ℕ) : ℕ :=
  365 * (y - 1) + (y - 1) / 4 - (y - 1) / 100 + (y - 1) / 400 + daysBeforeMonth y m + d

/-- `datetime.strptime(s, "%Y-%m-%d")` as a partial parse: `%Y` is exactly
four digits, `%m`/`%d` one or two digits, and the date must exist
(month 1-12, day within the month, year at least `MINYEAR = 1`); anything
else raises `ValueError`, i.e. `none`. -/
def parseDateYMD (s : String) : Option (ℕ × ℕ × ℕ) :=
  match PyStr.splitOn s "-" with
  | [ys, ms, ds] =>
    if ys.length = 4 ∧ ys.toList.all Char.isDigit
        ∧ 1 ≤ ms.length ∧ ms.length ≤ 2 ∧ ms.toList.all Char.isDigit
        ∧ 1 ≤ ds.length ∧ ds.length ≤ 2 ∧ ds.toList.all Char.isDigit then
      let y := PyStr.toNat ys
      let m := PyStr.toNat ms
      let d := PyStr.toNat ds
      if 1 ≤ y ∧ 1 ≤ m ∧ m ≤ 12 ∧ 1 ≤ d ∧ d ≤ daysInMonth y m then some (y, m, d)
      else none
    else none
  | _ => none

/-- Parse a `YYYY-MM-DD` string to its day ordinal. -/
def parseDateOrd (s : String) : Option ℕ :=
  (parseDateYMD s).map (fun t => dateOrdinal t.1 t.2.1 t.2.2)

/-- `REFERENCE_DATE = datetime(2026, 2, 26)` (build-prospect-data.py line 57),
as a day ordinal. -/
def REFERENCE_DATE : ℕ := dateOrdinal 2026 2 26

/-- `compute_page_status` (lines 481-494): a step function of the average
posts/month over the trailing window. -/
def compute_page_status (avg : Option ℚ) : Option String :=
  match avg with
  | none => none
  | some a =>
    if a = 0 then some "dark"
    else if a ≤ 3 then some "grey"
    else if a ≤ 7 then some "cloudy"
    else if a ≤ 20 then some "sunny"
    else some "tornado"

/-- The fields of one dealer record that `compute_scores` (lines 497-594)
reads. `avg_posts_last_3mo_sprout` / `last_post_sprout` are the values
stashed by `load_post_performance` (lines 305-306); numeric fields are
`None` when the enrichment source was absent. -/
structure DealerRec where
  avg_posts_last_3mo_sprout : Option ℚ := none
  last_post_sprout : Option String := none
  first_post_date : Option String := none
  posting_days : Option ℤ := none
  program_status : String := "CONTENT"
  tier_investment : String := "unknown"
  dealer_web_address : Option String := none
  enrollment_days : Option ℤ := none
  sprout_followers : Option ℤ := none
  sprout_received_pms : Option ℤ := none
  sprout_page_actions : Option ℤ := none
  sprout_follower_growth : Option ℤ := none
  sprout_engagement_rate : Option ℚ := none
  is_opt_out : Bool := false

/-- Lines 507-515: after the trailing-window average was computed, a last
Sprout post more than 90 days before `REFERENCE_DATE` overrides the average
to `0` ("page is effectively dark now"); an unparseable date
(`ValueError`) leaves the average untouched (`pass`). -/
def avgWithOverride (d : DealerRec) : Option ℚ :=
  match d.last_post_sprout with
  | none => d.avg_posts_last_3mo_sprout
  | some s =>
    match parseDateOrd s with
    | none => d.avg_posts_last_3mo_sprout
    | some lastOrd =>
      if (REFERENCE_DATE : ℤ) - lastOrd > 90 then some 0
      else d.avg_posts_last_3mo_sprout

/-- Line 517: the health label is derived from the (possibly overridden)
average. -/
def page_status_of (d : DealerRec) : Option String :=
  compute_page_status (avgWithOverride d)

/-- The twelve boolean scoring predicates of lines 532-577, one per entity
field. -/
structure Flags where
  had_posts : Bool
  posting_over_year : Bool
  was_full : Bool
  pro_tier : Bool
  has_website : Bool
  enrollment_over_2y : Bool
  followers_over_250 : Bool
  pms_over_25 : Bool
  page_actions_pos : Bool
  dark_or_grey : Bool
  follower_growth_pos : Bool
  eng_rate_over_10 : Bool

/-- The predicates exactly as the Python conditions evaluate them,
including truthiness: `d.get(k) and d[k] > n` is false for `None` and for a
zero value. -/
def flagsOf (d : DealerRec) : Flags :=
  { had_posts := match d.first_post_date with
      | none => false
      | some s => decide (s ≠ "")
    posting_over_year := match d.posting_days with
      | none => false
      | some n => decide (n ≠ 0) && decide (n > 365)
    was_full := decide (d.program_status = "FULL")
    pro_tier := decide (d.tier_investment = "high")
    has_website := match d.dealer_web_address with
      | none => false
      | some s => decide (s ≠ "")
    enrollment_over_2y := match d.enrollment_days with
      | none => false
      | some n => decide (n ≠ 0) && decide (n > 730)
    followers_over_250 := match d.sprout_followers with
      | none => false
      | some n => decide (n ≠ 0) && decide (n > 250)
    pms_over_25 := match d.sprout_received_pms with
      | none => false
      | some n => decide (n ≠ 0) && decide (n > 25)
    page_actions_pos := match d.sprout_page_actions with
      | none => false
      | some n => decide (n ≠ 0) && decide (n > 0)
    dark_or_grey := match page_status_of d with
      | none => false
      | some s => decide (s = "dark") || decide (s = "grey")
    follower_growth_pos := match d.sprout_follower_growth with
      | none => false
      | some n => decide (n ≠ 0) && decide (n > 0)
    eng_rate_over_10 := match d.sprout_engagement_rate with
      | none => false
      | some r => decide (r ≠ 0) && decide (r > 10) }

/-- The weight table of lines 530-578 as a sum over the twelve predicates. -/
def scoreFlags (f : Flags) : ℚ :=
  (0 : ℚ)
  + (if f.had_posts then 2 else 0)
  + (if f.posting_over_year then 1 else 0)
  + (if f.was_full then 1 else 0)
  + (if f.pro_tier then 1 else 0)
  + (if f.has_website then 1/2 else 0)
  + (if f.enrollment_over_2y then 1/2 else 0)
  + (if f.followers_over_250 then 1/2 else 0)
  + (if f.pms_over_25 then 1/2 else 0)
  + (if f.page_actions_pos then 1/2 else 0)
  + (if f.dark_or_grey then 1 else 0)
  + (if f.follower_growth_pos then 1/2 else 0)
  + (if f.eng_rate_over_10 then 1 else 0)

/-- Lines 529-583: the accumulating score (`score = 0.0`, one `score += w`
per true predicate, in source order), with the opt-out penalty
(`score = -99`) applied last. -/
def score_raw (d : DealerRec) : ℚ :=
  let f := flagsOf d
  let score : ℚ := 0
  let score := if f.had_posts then score + 2 else score
  let score := if f.posting_over_year then score + 1 else score
  let score := if f.was_full then score + 1 else score
  let score := if f.pro_tier then score + 1 else score
  let score := if f.has_website then score + 1/2 else score
  let score := if f.enrollment_over_2y then score + 1/2 else score
  let score := if f.followers_over_250 then score + 1/2 else score
  let score := if f.pms_over_25 then score + 1/2 else score
  let score := if f.page_actions_pos then score + 1/2 else score
  let score := if f.dark_or_grey then score + 1 else score
  let score := if f.follower_growth_pos then score + 1/2 else score
  let score := if f.eng_rate_over_10 then score + 1 else score
  if d.is_opt_out then -99 else score

/-- Python `round(x, 1)`. Python rounds half to even; every score this
pipeline produces is an exact multiple of `1/2`, so `x * 10` is an
integer and no tie is ever broken, making `Mathlib.round` agree. -/
def round1 (x : ℚ) : ℚ := ((round (x * 10) : ℤ) : ℚ) / 10

/-- Python `round(x, 2)` (same remark as `round1`). -/
def round2 (x : ℚ) : ℚ := ((round (x * 100) : ℤ) : ℚ) / 100

/-- Line 584: `d["prospect_score"] = round(score, 1)`. -/
def prospect_score (d : DealerRec) : ℚ := round1 (score_raw d)

/-- Lines 587-592: the tier cut, computed from the unrounded score. -/
def prospect_tier (d : DealerRec) : String :=
  if score_raw d ≥ 7 then "hot"
  else if score_raw d ≥ 4 then "warm"
  else "cold"

/-- One post row of the Sprout Post Performance group for a dealer, after
`pd.to_numeric(..., errors="coerce")`: a field is `none` where the source
was non-numeric (NaN). -/
structure PostRow where
  impressions : Option ℚ := none
  engagements : Option ℚ := none

/-- pandas `Series.sum()` with default `skipna=True`: NaN entries are
dropped and the empty/all-NaN sum is `0`. -/
def sumOpt (l : List (Option ℚ)) : ℚ := l.foldl (fun a x => a + x.getD 0) 0

/-- `group["Impressions"].sum()` (line 279). -/
def total_impressions (g : List PostRow) : ℚ := sumOpt (g.map (fun r => r.impressions))

/-- `group["Engagements"].sum()` (line 282). -/
def total_engagements (g : List PostRow) : ℚ := sumOpt (g.map (fun r => r.engagements))

/-- Lines 278-282: the engagement rate is computed only under the guard
`if total_imp and total_imp > 0` (Python truthiness plus strict
positivity); otherwise it stays `None`. -/
def engagement_rate (g : List PostRow) : Option ℚ :=
  let total_imp := total_impressions g
  if total_imp ≠ 0 ∧ total_imp > 0 then
    some (round2 (total_engagements g / total_imp * 100))
  else none

/-- One raw Excel row as read with `dtype=str`: the `Dealer No` cell
(`none` = NaN) and the remaining cells. The record built from a row by
lines 148-216 is a pure function of the row, so dedup — which happens on
rows, before records are built — is faithfully modelled at row level. -/
structure ExcelRow where
  dealer_no : Option String
  fields : List (String × String) := []

/-- Worker for `drop_duplicates`: keep a row iff its key was not seen yet. -/
def dropDupAux (seen : List (Option String)) : List ExcelRow → List ExcelRow
  | [] => []
  | r :: rs =>
    if seen.contains r.dealer_no then dropDupAux seen rs
    else r :: dropDupAux (r.dealer_no :: seen) rs

/-- `edf.drop_duplicates(subset="Dealer No", keep="first")` (line 138):
pandas keeps the first row per key value in source order; NaN keys compare
equal to each other for this purpose. -/
def drop_duplicates (rows : List ExcelRow) : List ExcelRow := dropDupAux [] rows

/-- Line 139: `edf["Dealer No"].notna() & (edf["Dealer No"].astype(str) != "nan")`. -/
def keptRows (rows : List ExcelRow) : List ExcelRow :=
  (drop_duplicates rows).filter fun r =>
    match r.dealer_no with
    | none => false
    | some s => decide (s ≠ "nan")

/-- Python dict assignment `dealers[dno] = record`: replace in place when
the key exists (keeping its original position), else append. -/
def insertOrReplace : List (String × ExcelRow) → String → ExcelRow → List (String × ExcelRow)
  | [], k, v => [(k, v)]
  | (k₀, v₀) :: t, k, v =>
    if k₀ = k then (k₀, v) :: t else (k₀, v₀) :: insertOrReplace t k v

/-- `load_excel` (lines 132-146 plus the `dealers[dno] = {...}` loop):
dedup by raw key, drop NaN keys, then build the dict keyed by the stripped
dealer number, skipping empty keys (`if not dno: continue`). The value
stands for the record built from that row. -/
def load_excel (rows : List ExcelRow) : List (String × ExcelRow) :=
  (keptRows rows).foldl
    (fun acc r =>
      match r.dealer_no with
      | none => acc
      | some s =>
        let dno := PyStr.strip s
        if dno = "" then acc else insertOrReplace acc dno r)
    []

end BuildProspect

namespace BuildAllied

/-- `safe_str` (build-pe-allied-dealers.py lines 44-51). -/
def safe_str (val : Option String) : Option String :=
  match val with
  | none => none
  | some v =>
    let s := PyStr.strip v
    if s = "" ∨ s = "NULL" ∨ s = "null" ∨ s = "None" ∨ s = "none" ∨ s = "nan" then none
    else some s

/-- `safe_bool` (lines 53-58). -/
def safe_bool (val : Option String) : Bool :=
  match val with
  | none => false
  | some v =>
    let s := PyStr.upper (PyStr.strip v)
    decide (s = "YES") || decide (s = "TRUE") || decide (s = "1")

/-- One CSV row as `csv.DictReader` yields it (`row.get(col)`; a missing
column is `None`). -/
structure ApiRow where
  dealer_no : Option String := none
  dealer_name : Option String := none
  status : Option String := none
  street : Option String := none
  town : Option String := none
  region : Option String := none
  postal_code : Option String := none
  country : Option String := none
  contact_name : Option String := none
  contact_email : Option String := none
  contact_phone : Option String := none
  dealer_website : Option String := none
  facebook : Option String := none
  turnkey_opt_in : Option String := none
  opt_in_date : Option String := none
  opt_out_date : Option String := none
  turnkey_email : Option String := none
  turnkey_phone : Option String := none
  distributor_name : Option String := none
  distributor_po : Option String := none
  brands : Option String := none

/-- The dealer record `load_api_csv` appends (lines 81-103). -/
structure ApiDealer where
  dealer_no : String
  dealer_name : Option String
  status : Option String
  street : Option String
  city : Option String
  state : Option String
  postal_code : Option String
  country : Option String
  contact_name : Option String
  contact_email : Option String
  contact_phone : Option String
  dealer_website : Option String
  facebook_url : Option String
  turnkey_opt_in : Bool
  turnkey_opt_in_date : Option String
  turnkey_opt_out_date : Option String
  turnkey_email : Option String
  turnkey_phone : Option String
  distributor_name : Option String
  distributor_po : Option String
  brands : Option String

/-- `load_api_csv` (lines 64-112): every row with a usable `dealer_no` is
appended to the output list — there is no deduplication step. -/
def load_api_csv (rows : List ApiRow) : List ApiDealer :=
  rows.filterMap fun row =>
    match safe_str row.dealer_no with
    | none => none
    | some dno =>
      some
        { dealer_no := dno
          dealer_name := safe_str row.dealer_name
          status := safe_str row.status
          street := safe_str row.street
          city := safe_str row.town
          state := safe_str row.region
          postal_code := safe_str row.postal_code
          country := safe_str row.country
          contact_name := safe_str row.contact_name
          contact_email := safe_str row.contact_email
          contact_phone := safe_str row.contact_phone
          dealer_website := safe_str row.dealer_website
          facebook_url := safe_str row.facebook
          turnkey_opt_in := safe_bool row.turnkey_opt_in
          turnkey_opt_in_date := safe_str row.opt_in_date
          turnkey_opt_out_date := safe_str row.opt_out_date
          turnkey_email := safe_str row.turnkey_email
          turnkey_phone := safe_str row.turnkey_phone
          distributor_name := safe_str row.distributor_name
          distributor_po := safe_str row.distributor_po
          brands := safe_str row.brands }

end BuildAllied

namespace ImportExcel

/-- A pandas cell as `clean_dealer_no` (import_excel.py lines 181-213)
receives it: NaN, a float (carrying its `str()` form and whether
`value < 1`), or a string. The `ltOne` flag abstracts the one float
comparison of the source; everything else operates on the string form. -/
inductive CellValue where
  | nan : CellValue
  | flt (rep : String) (ltOne : Bool) : CellValue
  | str (s : String) : CellValue

/-- `f"{n:03d}"`: zero-pad to at least three digits. -/
def pad3 (n : ℕ) : String :=
  let s := toString n
  if s.length < 3 then String.mk (List.replicate (3 - s.length) '0') ++ s else s

/-- `f"TEMP-{counter:03d}"`. -/
def tempId (n : ℕ) : String := "TEMP-" ++ pad3 n

/-- `clean_dealer_no` with the process-wide `_dummy_counter` threaded
explicitly: returns the cleaned dealer number (or `none`) and the new
counter. Mirrors the source branch for branch, including the repeated
scientific-notation check on the string form. -/
def clean_dealer_no : CellValue → ℕ → Option String × ℕ
  | .nan, c => (none, c)
  | .flt rep ltOne, c =>
    if ltOne || PyStr.containsChar (PyStr.lower rep) 'e' then (some (tempId (c + 1)), c + 1)
    else
      let s := rep
      if PyStr.containsChar (PyStr.lower s) 'e' then (some (tempId (c + 1)), c + 1)
      else
        let s := if PyStr.containsChar s '.' then (PyStr.splitOn s ".").headD "" else s
        if s = "" then (none, c) else (some (PyStr.strip s), c)
  | .str v, c =>
    let s := v
    if PyStr.containsChar (PyStr.lower s) 'e' then (some (tempId (c + 1)), c + 1)
    else
      let s := if PyStr.containsChar s '.' then (PyStr.splitOn s ".").headD "" else s
      if s = "" then (none, c) else (some (PyStr.strip s), c)

/-- The condition under which `clean_dealer_no` assigns a synthetic
identifier (the "dummy dealer number" branches). -/
def isDummy : CellValue → Bool
  | .nan => false
  | .flt rep ltOne => ltOne || PyStr.containsChar (PyStr.lower rep) 'e'
  | .str v => PyStr.containsChar (PyStr.lower v) 'e'

/-- The counter after cleaning a whole run of key cells in order. -/
def runCounter (vs : List CellValue) (c : ℕ) : ℕ :=
  vs.foldl (fun acc v => (clean_dealer_no v acc).2) c

end ImportExcel

/-! ## Shared helper lemmas -/

/-- One step of the Python accumulation `score += w if pred else score`
rewritten as a sum of an indicator. -/
lemma ite_add_shift (b : Bool) (s w : ℚ) : (if b then s + w else s) = s + (if b then w else 0) := by
  cases b <;> simp

/-- `score_raw` is the flag sum, except for the opt-out sentinel. -/
lemma BuildProspect.score_raw_eq_flags (d : BuildProspect.DealerRec) :
    BuildProspect.score_raw d =
      if d.is_opt_out then (-99 : ℚ) else BuildProspect.scoreFlags (BuildProspect.flagsOf d) := by
  simp only [BuildProspect.score_raw, BuildProspect.scoreFlags, ite_add_shift]

/-- The flag sum is bounded by `0` below and by the total weight `10` above. -/
lemma BuildProspect.scoreFlags_bounds (f : BuildProspect.Flags) :
    0 ≤ BuildProspect.scoreFlags f ∧ BuildProspect.scoreFlags f ≤ 10 := by
  have h1 : 0 ≤ (if f.had_posts then (2 : ℚ) else 0) ∧ (if f.had_posts then (2 : ℚ) else 0) ≤ 2 := by
    cases f.had_posts <;> norm_num
  have h2 : 0 ≤ (if f.posting_over_year then (1 : ℚ) else 0) ∧
      (if f.posting_over_year then (1 : ℚ) else 0) ≤ 1 := by
    cases f.posting_over_year <;> norm_num
  have h3 : 0 ≤ (if f.was_full then (1 : ℚ) else 0) ∧ (if f.was_full then (1 : ℚ) else 0) ≤ 1 := by
    cases f.was_full <;> norm_num
  have h4 : 0 ≤ (if f.pro_tier then (1 : ℚ) else 0) ∧ (if f.pro_tier then (1 : ℚ) else 0) ≤ 1 := by
    cases f.pro_tier <;> norm_num
  have h5 : 0 ≤ (if f.has_website then (1 / 2 : ℚ) else 0) ∧
      (if f.has_website then (1 / 2 : ℚ) else 0) ≤ 1 / 2 := by
    cases f.has_website <;> norm_num
  have h6 : 0 ≤ (if f.enrollment_over_2y then (1 / 2 : ℚ) else 0) ∧
      (if f.enrollment_over_2y then (1 / 2 : ℚ) else 0) ≤ 1 / 2 := by
    cases f.enrollment_over_2y <;> norm_num
  have h7 : 0 ≤ (if f.followers_over_250 then (1 / 2 : ℚ) else 0) ∧
      (if f.followers_over_250 then (1 / 2 : ℚ) else 0) ≤ 1 / 2 := by
    cases f.followers_over_250 <;> norm_num
  have h8 : 0 ≤ (if f.pms_over_25 then (1 / 2 : ℚ) else 0) ∧
      (if f.pms_over_25 then (1 / 2 : ℚ) else 0) ≤ 1 / 2 := by
    cases f.pms_over_25 <;> norm_num
  have h9 : 0 ≤ (if f.page_actions_pos then (1 / 2 : ℚ) else 0) ∧
      (if f.page_actions_pos then (1 / 2 : ℚ) else 0) ≤ 1 / 2 := by
    cases f.page_actions_pos <;> norm_num
  have h10 : 0 ≤ (if f.dark_or_grey then (1 : ℚ) else 0) ∧
      (if f.dark_or_grey then (1 : ℚ) else 0) ≤ 1 := by
    cases f.dark_or_grey <;> norm_num
  have h11 : 0 ≤ (if f.follower_growth_pos then (1 / 2 : ℚ) else 0) ∧
      (if f.follower_growth_pos then (1 / 2 : ℚ) else 0) ≤ 1 / 2 := by
    cases f.follower_growth_pos <;> norm_num
  have h12 : 0 ≤ (if f.eng_rate_over_10 then (1 : ℚ) else 0) ∧
      (if f.eng_rate_over_10 then (1 : ℚ) else 0) ≤ 1 := by
    cases f.eng_rate_over_10 <;> norm_num
  unfold BuildProspect.scoreFlags
  constructor <;>
    linarith [h1.1, h1.2, h2.1, h2.2, h3.1, h3.2, h4.1, h4.2, h5.1, h5.2, h6.1, h6.2,
      h7.1, h7.2, h8.1, h8.2, h9.1, h9.2, h10.1, h10.2, h11.1, h11.2, h12.1, h12.2]

/-- `round` is monotone. -/
lemma round_rat_mono {x y : ℚ} (h : x ≤ y) : round x ≤ round y := by
  rw [round_eq, round_eq]
  exact Int.floor_mono (by linarith)

/-- `round1` is monotone. -/
lemma BuildProspect.round1_mono {x y : ℚ} (h : x ≤ y) :
    BuildProspect.round1 x ≤ BuildProspect.round1 y := by
  unfold BuildProspect.round1
  have h10 : x * 10 ≤ y * 10 := by linarith
  have := round_rat_mono h10
  have hc : ((round (x * 10) : ℤ) : ℚ) ≤ ((round (y * 10) : ℤ) : ℚ) := by exact_mod_cast this
  linarith

/-- `round1` fixes integers (used at `0`, `10` and `-99`). -/
lemma BuildProspect.round1_intMul {n : ℤ} : BuildProspect.round1 (n : ℚ) = n := by
  unfold BuildProspect.round1
  have : ((n : ℚ)) * 10 = ((n * 10 : ℤ) : ℚ) := by push_cast; ring
  rw [this, round_intCast]
  push_cast
  field_simp

/-- The counter moves by exactly the dummy indicator. -/
lemma ImportExcel.counter_step (v : ImportExcel.CellValue) (c : ℕ) :
    (ImportExcel.clean_dealer_no v c).2 = c + (if ImportExcel.isDummy v then 1 else 0) := by
  cases v <;> simp only [ImportExcel.clean_dealer_no, ImportExcel.isDummy] <;>
    split_ifs <;> simp_all

/-! ## Claim theorems -/

/-- C7: for a key that `clean_dealer_no` classifies as a dummy (a float
below one or a value whose string form carries scientific notation), the
loader returns a synthetic `TEMP-` identifier built from the incremented
process-wide counter — the row is not dropped, the identifier does not
depend on the bad value, and over a load run the counter grows
monotonically by exactly one per dummy key. -/
theorem clean_dealer_no_temp_assignment :
    (∀ (v : ImportExcel.CellValue) (c : ℕ), ImportExcel.isDummy v = true →
      ImportExcel.clean_dealer_no v c = (some (ImportExcel.tempId (c + 1)), c + 1))
    ∧ (∀ (v w : ImportExcel.CellValue) (c : ℕ),
        ImportExcel.isDummy v = true → ImportExcel.isDummy w = true →
        (ImportExcel.clean_dealer_no v c).1 = (ImportExcel.clean_dealer_no w c).1)
    ∧ (∀ (vs : List ImportExcel.CellValue) (c : ℕ),
        ImportExcel.runCounter vs c = c + vs.countP ImportExcel.isDummy)
    ∧ (∀ (v : ImportExcel.CellValue) (c : ℕ), c ≤ (ImportExcel.clean_dealer_no v c).2) := by
  have hdum : ∀ (v : ImportExcel.CellValue) (c : ℕ), ImportExcel.isDummy v = true →
      ImportExcel.clean_dealer_no v c = (some (ImportExcel.tempId (c + 1)), c + 1) := by
    intro v c h
    cases v with
    | nan => exact absurd h (by simp [ImportExcel.isDummy])
    | flt rep ltOne =>
      simp only [ImportExcel.isDummy] at h
      simp [ImportExcel.clean_dealer_no, h]
    | str s =>
      simp only [ImportExcel.isDummy] at h
      simp [ImportExcel.clean_dealer_no, h]
  refine ⟨hdum, ?_, ?_, ?_⟩
  · intro v w c hv hw
    rw [hdum v c hv, hdum w c hw]
  · intro vs
    induction vs with
    | nil => intro c; simp [ImportExcel.runCounter]
    | cons v tl ih =>
      intro c
      have step := ImportExcel.counter_step v c
      simp only [ImportExcel.runCounter, List.foldl_cons] at *
      rw [ih ((ImportExcel.clean_dealer_no v c).2), step, List.countP_cons]
      by_cases hv : ImportExcel.isDummy v = true
      · simp [hv]
        omega
      · simp [hv]
  · intro v c
    rw [ImportExcel.counter_step]
    omega

/-- C7 witness: the scientific-notation placeholder `"1e-07"` with counter 0
gets `TEMP-001` and bumps the counter to 1. -/
theorem clean_dealer_no_temp_assignment_witness :
    ImportExcel.clean_dealer_no (ImportExcel.CellValue.str "1e-07") 0 =
      (some (ImportExcel.tempId 1), 1) ∧ ImportExcel.tempId 1 = "TEMP-001" :=
  ⟨clean_dealer_no_temp_assignment.1 (ImportExcel.CellValue.str "1e-07") 0 (by rfl), by rfl⟩

/-- C8: `normalize_phone` strips non-digits, drops the leading country code
from an 11-digit number starting with `1`, and accepts exactly 10-digit
results: the three spec examples all give `"5551234567"`, `"12345"` gives
`None`, and any accepted output has exactly 10 characters, all digits. -/
theorem normalize_phone_spec :
    Matcher.normalize_phone (some "+1 (555) 123-4567") = some "5551234567"
    ∧ Matcher.normalize_phone (some "555.123.4567") = some "5551234567"
    ∧ Matcher.normalize_phone (some "15551234567") = some "5551234567"
    ∧ Matcher.normalize_phone (some "12345") = none
    ∧ (∀ (s : Option String) (r : String), Matcher.normalize_phone s = some r →
        r.length = 10 ∧ r.toList.all Char.isDigit = true) := by
  refine ⟨by rfl, by rfl, by rfl, by rfl, ?_⟩
  intro s r h
  cases s with
  | none => simp [Matcher.normalize_phone] at h
  | some str =>
    simp only [Matcher.normalize_phone] at h
    by_cases h0 : str = ""
    · simp [h0] at h
    · rw [if_neg h0] at h
      have hall0 : (str.toList.filter Char.isDigit).all Char.isDigit = true :=
        List.all_eq_true.mpr fun x hx => (List.mem_filter.mp hx).2
      set digits0 := str.toList.filter Char.isDigit with hd0
      by_cases hc : digits0.length = 11 && decide (digits0.take 1 = ['1'])
      · rw [if_pos hc] at h
        by_cases hl : (digits0.drop 1).length = 10
        · rw [if_pos hl] at h
          obtain rfl : r = (digits0.drop 1).asString := (Option.some.inj h).symm
          refine ⟨by simpa using hl, ?_⟩
          rw [List.toList_asString]
          exact List.all_eq_true.mpr fun x hx =>
            List.all_eq_true.mp hall0 x (List.mem_of_mem_drop hx)
        · rw [if_neg hl] at h
          exact absurd h (by simp)
      · rw [if_neg hc] at h
        by_cases hl : digits0.length = 10
        · rw [if_pos hl] at h
          obtain rfl : r = digits0.asString := (Option.some.inj h).symm
          refine ⟨by simpa using hl, ?_⟩
          rw [List.toList_asString]
          exact hall0
        · rw [if_neg hl] at h
          exact absurd h (by simp)

/-- C8 witness: the general acceptance contract at a concrete input. -/
theorem normalize_phone_spec_witness :
    ("5551234567" : String).length = 10 ∧
      ("5551234567" : String).toList.all Char.isDigit = true :=
  normalize_phone_spec.2.2.2.2 (some "+1 (555) 123-4567") "5551234567" (by rfl)

/-- C5: when an entity has Sprout posting data whose most recent post date
parses and lies more than 90 days before `REFERENCE_DATE`, the
trailing-window frequency is overridden to `0` — the inactive bucket,
classified "dark" — regardless of the already-computed trailing-window
average; when not stale, the computed average passes through untouched, and
the health label is always derived from the (possibly overridden) value. -/
theorem stale_override_forces_dark :
    (∀ (d : BuildProspect.DealerRec) (s : String) (dayOrd : ℕ),
      d.last_post_sprout = some s →
      BuildProspect.parseDateOrd s = some dayOrd →
      (BuildProspect.REFERENCE_DATE : ℤ) - (dayOrd : ℤ) > 90 →
      BuildProspect.avgWithOverride d = some 0 ∧
        BuildProspect.page_status_of d = some "dark")
    ∧ (∀ (d : BuildProspect.DealerRec) (s : String) (dayOrd : ℕ),
      d.last_post_sprout = some s →
      BuildProspect.parseDateOrd s = some dayOrd →
      ¬ ((BuildProspect.REFERENCE_DATE : ℤ) - (dayOrd : ℤ) > 90) →
      BuildProspect.avgWithOverride d = d.avg_posts_last_3mo_sprout)
    ∧ BuildProspect.compute_page_status (some 0) = some "dark" := by
  refine ⟨?_, ?_, by simp [BuildProspect.compute_page_status]⟩
  · intro d s dayOrd h1 h2 h3
    have havg : BuildProspect.avgWithOverride d = some 0 := by
      simp only [BuildProspect.avgWithOverride, h1, h2]
      rw [if_pos h3]
    refine ⟨havg, ?_⟩
    unfold BuildProspect.page_status_of
    rw [havg]
    simp [BuildProspect.compute_page_status]
  · intro d s dayOrd h1 h2 h3
    simp only [BuildProspect.avgWithOverride, h1, h2]
    rw [if_neg h3]

/-- C5 witness: a dealer whose last Sprout post was 2025-01-01 (422 days
before the reference date) with a high trailing-window average of 15
(which alone would classify "sunny") is forced to average 0, label
"dark". -/
theorem stale_override_forces_dark_witness :
    BuildProspect.avgWithOverride
        { avg_posts_last_3mo_sprout := some 15, last_post_sprout := some "2025-01-01" } = some 0
    ∧ BuildProspect.page_status_of
        { avg_posts_last_3mo_sprout := some 15, last_post_sprout := some "2025-01-01" } =
      some "dark" :=
  stale_override_forces_dark.1
    { avg_posts_last_3mo_sprout := some 15, last_post_sprout := some "2025-01-01" }
    "2025-01-01" (BuildProspect.dateOrdinal 2025 1 1) rfl (by rfl) (by decide)

/-- C9: the engagement-rate ratio is produced exactly under the guard that
the aggregated impression total is strictly positive; with a zero or
negative total (NaN source cells already dropped by the skip-NaN sum) the
rate is an explicit `None` and the division is never executed. -/
theorem engagement_rate_guard :
    (∀ (g : List BuildProspect.PostRow) (r : ℚ),
      BuildProspect.engagement_rate g = some r → 0 < BuildProspect.total_impressions g)
    ∧ (∀ g : List BuildProspect.PostRow,
      BuildProspect.total_impressions g ≤ 0 → BuildProspect.engagement_rate g = none) := by
  constructor
  · intro g r h
    simp only [BuildProspect.engagement_rate] at h
    by_cases hc : BuildProspect.total_impressions g ≠ 0 ∧ BuildProspect.total_impressions g > 0
    · exact hc.2
    · rw [if_neg hc] at h
      exact absurd h (by simp)
  · intro g hle
    have hneg : ¬ (BuildProspect.total_impressions g ≠ 0 ∧
        BuildProspect.total_impressions g > 0) := by
      rintro ⟨-, h2⟩
      linarith
    simp only [BuildProspect.engagement_rate]
    rw [if_neg hneg]

/-- C9 witness: a group whose only impression value is `0` gets rate
`None`. -/
theorem engagement_rate_guard_witness :
    BuildProspect.engagement_rate [{ impressions := some 0, engagements := some 5 }] = none :=
  engagement_rate_guard.2 [{ impressions := some 0, engagements := some 5 }]
    (by norm_num [BuildProspect.total_impressions, BuildProspect.sumOpt])

/-- C10: every scored entity gets either exactly the sentinel `-99`
(opt-out) or a score between `0` and `10` — `10` being the total of the
twelve weights — and the tier is always one of `hot`, `warm`, `cold`. -/
theorem prospect_score_range :
    ∀ d : BuildProspect.DealerRec,
      (BuildProspect.prospect_score d = -99 ∨
        (0 ≤ BuildProspect.prospect_score d ∧ BuildProspect.prospect_score d ≤ 10))
      ∧ BuildProspect.prospect_tier d ∈ (["hot", "warm", "cold"] : List String)
      ∧ BuildProspect.scoreFlags
          ⟨true, true, true, true, true, true, true, true, true, true, true, true⟩ = 10 := by
  intro d
  have h0 : BuildProspect.round1 0 = 0 := by
    simpa using @BuildProspect.round1_intMul 0
  have h10 : BuildProspect.round1 10 = 10 := by
    simpa using @BuildProspect.round1_intMul 10
  refine ⟨?_, ?_, by norm_num [BuildProspect.scoreFlags]⟩
  · by_cases hopt : d.is_opt_out
    · left
      unfold BuildProspect.prospect_score
      rw [BuildProspect.score_raw_eq_flags, if_pos hopt]
      have hcast : ((-99 : ℚ)) = ((-99 : ℤ) : ℚ) := by norm_num
      rw [hcast, BuildProspect.round1_intMul]
    · right
      unfold BuildProspect.prospect_score
      rw [BuildProspect.score_raw_eq_flags, if_neg hopt]
      obtain ⟨hl, hu⟩ := BuildProspect.scoreFlags_bounds (BuildProspect.flagsOf d)
      constructor
      · have h := BuildProspect.round1_mono hl
        rw [h0] at h
        exact h
      · have h := BuildProspect.round1_mono hu
        rw [h10] at h
        exact h
  · unfold BuildProspect.prospect_tier
    split_ifs <;> simp

/-- C4: the scoring step decomposes into the twelve-predicate weighted sum
guarded by the opt-out sentinel; an opt-out entity always scores exactly
`-99` and lands in the lowest tier `cold` whatever its other fields;
turning any single one of the twelve predicates from false to true (each
predicate reads its own entity field) never decreases the flag sum; and the
final rounding to one decimal is monotone, so the recorded score never
decreases either. -/
theorem opt_out_sentinel_and_monotonicity :
    (∀ d : BuildProspect.DealerRec,
      BuildProspect.score_raw d =
        if d.is_opt_out then (-99 : ℚ) else BuildProspect.scoreFlags (BuildProspect.flagsOf d))
    ∧ (∀ d : BuildProspect.DealerRec, d.is_opt_out = true →
      BuildProspect.prospect_score d = -99 ∧ BuildProspect.prospect_tier d = "cold")
    ∧ (∀ f : BuildProspect.Flags,
      BuildProspect.scoreFlags f ≤ BuildProspect.scoreFlags { f with had_posts := true }
      ∧ BuildProspect.scoreFlags f ≤ BuildProspect.scoreFlags { f with posting_over_year := true }
      ∧ BuildProspect.scoreFlags f ≤ BuildProspect.scoreFlags { f with was_full := true }
      ∧ BuildProspect.scoreFlags f ≤ BuildProspect.scoreFlags { f with pro_tier := true }
      ∧ BuildProspect.scoreFlags f ≤ BuildProspect.scoreFlags { f with has_website := true }
      ∧ BuildProspect.scoreFlags f ≤ BuildProspect.scoreFlags { f with enrollment_over_2y := true }
      ∧ BuildProspect.scoreFlags f ≤ BuildProspect.scoreFlags { f with followers_over_250 := true }
      ∧ BuildProspect.scoreFlags f ≤ BuildProspect.scoreFlags { f with pms_over_25 := true }
      ∧ BuildProspect.scoreFlags f ≤ BuildProspect.scoreFlags { f with page_actions_pos := true }
      ∧ BuildProspect.scoreFlags f ≤ BuildProspect.scoreFlags { f with dark_or_grey := true }
      ∧ BuildProspect.scoreFlags f ≤ BuildProspect.scoreFlags { f with follower_growth_pos := true }
      ∧ BuildProspect.scoreFlags f ≤ BuildProspect.scoreFlags { f with eng_rate_over_10 := true })
    ∧ (∀ x y : ℚ, x ≤ y → BuildProspect.round1 x ≤ BuildProspect.round1 y) := by
  refine ⟨BuildProspect.score_raw_eq_flags, ?_, ?_,
    fun x y h => BuildProspect.round1_mono h⟩
  · intro d hopt
    have hs : BuildProspect.score_raw d = -99 := by
      rw [BuildProspect.score_raw_eq_flags, if_pos hopt]
    constructor
    · unfold BuildProspect.prospect_score
      rw [hs]
      have hcast : ((-99 : ℚ)) = ((-99 : ℤ) : ℚ) := by norm_num
      rw [hcast, BuildProspect.round1_intMul]
    · unfold BuildProspect.prospect_tier
      rw [hs]
      norm_num
  · intro f
    obtain ⟨a1, a2, a3, a4, a5, a6, a7, a8, a9, a10, a11, a12⟩ := f
    refine ⟨?_, ?_, ?_, ?_, ?_, ?_, ?_, ?_, ?_, ?_, ?_, ?_⟩
    · cases a1 <;> simp [BuildProspect.scoreFlags]
    · cases a2 <;> simp [BuildProspect.scoreFlags]
    · cases a3 <;> simp [BuildProspect.scoreFlags]
    · cases a4 <;> simp [BuildProspect.scoreFlags]
    · cases a5 <;> simp [BuildProspect.scoreFlags]
    · cases a6 <;> simp [BuildProspect.scoreFlags]
    · cases a7 <;> simp [BuildProspect.scoreFlags]
    · cases a8 <;> simp [BuildProspect.scoreFlags]
    · cases a9 <;> simp [BuildProspect.scoreFlags]
    · cases a10 <;> simp [BuildProspect.scoreFlags]
    · cases a11 <;> simp [BuildProspect.scoreFlags]
    · cases a12 <;> simp [BuildProspect.scoreFlags]

/-- C4 witness: a pure opt-out entity scores the sentinel and lands in the
lowest tier, and rounding respects an example inequality. -/
theorem opt_out_sentinel_and_monotonicity_witness :
    BuildProspect.prospect_score { is_opt_out := true } = -99
    ∧ BuildProspect.prospect_tier { is_opt_out := true } = "cold"
    ∧ BuildProspect.round1 3 ≤ BuildProspect.round1 7 :=
  ⟨(opt_out_sentinel_and_monotonicity.2.1 { is_opt_out := true } rfl).1,
   (opt_out_sentinel_and_monotonicity.2.1 { is_opt_out := true } rfl).2,
   opt_out_sentinel_and_monotonicity.2.2.2 3 7 (by norm_num)⟩

/-- C1: the cascade consults phone before everything else; a source dealer
whose normalized phone has exactly one un-consumed pool candidate is
recorded as a `phone_exact` high-confidence match and the pool entity
consumed — for arbitrary email, domain and name indexes, which do not
occur in the resulting state, so no lower tier is ever consulted for this
dealer. -/
theorem cascade_phone_priority
    (phone_idx email_idx domain_idx : Matcher.Index) (ncs_idx : Matcher.NcsIndex)
    (st : Matcher.MatchState) (d : Matcher.Dealer) (dp : String)
    (lst : List Matcher.Prospect) (p : Matcher.Prospect)
    (hphone : Matcher.normalize_phone d.contact_phone = some dp)
    (hidx : phone_idx.lookup dp = some lst)
    (hcand : lst.filter (fun c => !(st.consumed.contains c.id)) = [p]) :
    Matcher.phoneTier phone_idx email_idx domain_idx ncs_idx st d =
      { st with
        high_confidence := st.high_confidence ++ [Matcher.hcRecord d p "phone_exact" dp]
        consumed := p.id :: st.consumed
        stats := { st.stats with phone_exact := st.stats.phone_exact + 1 } } := by
  simp only [Matcher.phoneTier, hphone, hidx, hcand]

/-- C1 witness: a dealer matchable both by phone (uniquely) and by domain
(uniquely) is resolved as `phone_exact`. -/
theorem cascade_phone_priority_witness :
    Matcher.phoneTier
        [("5551234567", [{ id := "p1", title := "Alpha" }])] []
        [("example.com", [{ id := "p1", title := "Alpha" }])] []
        Matcher.initState
        { dealer_no := "D1", contact_phone := some "+1 (555) 123-4567",
          dealer_website := some "https://www.example.com/path" } =
      { Matcher.initState with
        high_confidence := [Matcher.hcRecord
          { dealer_no := "D1", contact_phone := some "+1 (555) 123-4567",
            dealer_website := some "https://www.example.com/path" }
          { id := "p1", title := "Alpha" } "phone_exact" "5551234567"]
        consumed := ["p1"]
        stats := { Matcher.initState.stats with phone_exact := 1 } } := by
  have h := cascade_phone_priority
    [("5551234567", [{ id := "p1", title := "Alpha" }])] []
    [("example.com", [{ id := "p1", title := "Alpha" }])] []
    Matcher.initState
    { dealer_no := "D1", contact_phone := some "+1 (555) 123-4567",
      dealer_website := some "https://www.example.com/path" }
    "5551234567" [{ id := "p1", title := "Alpha" }] { id := "p1", title := "Alpha" }
    (by rfl) (by rfl) (by rfl)
  exact h

/-- The tier-4 index of the C2 counterexample: two distinct pool prospects
share the key (normalized name, city, state). -/
def c2ncs : Matcher.NcsIndex :=
  [(("zeta", "springfield", "IL"),
    [{ id := "p1", title := "Zeta" }, { id := "p2", title := "Zeta" }])]

/-- The C2 counterexample dealer: no phone, email or website, so the
cascade reaches tier 4, where its name+city+state key has two candidates. -/
def c2dealer : Matcher.Dealer :=
  { dealer_no := "D9", dealer_name := some "Zeta", city := some "Springfield",
    state := some "IL" }

/-- C2 counterexample: a source dealer whose tier-4 (name+city+state) key is
shared by two un-consumed pool candidates produces NO ambiguous record —
the ambiguous output stays empty; only the `name_city_state_ambiguous`
counter moves, and the dealer is simultaneously counted as unmatched. This
refutes the claim that at every tier, including tier 4, an ambiguous result
carrying the candidates is recorded. -/
theorem tier4_ambiguity_not_recorded :
    Matcher.run_matching [c2dealer] [] [] [] c2ncs =
      ([], [], [],
        { phone_exact := 0, phone_ambiguous := 0, email_exact := 0, email_ambiguous := 0,
          domain_exact := 0, domain_ambiguous := 0, name_city_state := 0,
          name_city_state_ambiguous := 1, unmatched := 1 })
    ∧ ((c2ncs.lookup ("zeta", "springfield", "IL")).getD []).length = 2
    ∧ Matcher.normalize_name (some (c2dealer.dealer_name.getD "")) = some "zeta" :=
  ⟨rfl, rfl, rfl⟩

/-- C2 amended: at the three tier-1 levels (phone, email, domain), two or
more un-consumed candidates produce an ambiguous record carrying the
candidate count and up to 5 candidate titles, bump the tier's ambiguous
counter, and stop the cascade (the lower-tier indexes do not occur in the
result); the match is never auto-resolved and nothing is consumed. At
tier 4 (name+city+state), ambiguity only bumps the
`name_city_state_ambiguous` counter — no ambiguous record is appended — and
the dealer is additionally counted as unmatched. -/
theorem ambiguity_recording_amended :
    (∀ (phone_idx email_idx domain_idx : Matcher.Index) (ncs_idx : Matcher.NcsIndex)
        (st : Matcher.MatchState) (d : Matcher.Dealer) (dp : String)
        (lst cs : List Matcher.Prospect) (c₁ c₂ : Matcher.Prospect),
      Matcher.normalize_phone d.contact_phone = some dp →
      phone_idx.lookup dp = some lst →
      lst.filter (fun c => !(st.consumed.contains c.id)) = c₁ :: c₂ :: cs →
      Matcher.phoneTier phone_idx email_idx domain_idx ncs_idx st d =
        { st with
          ambiguous := st.ambiguous ++
            [Matcher.ambRecord d "phone_exact" dp (c₁ :: c₂ :: cs)]
          stats := { st.stats with phone_ambiguous := st.stats.phone_ambiguous + 1 } })
    ∧ (∀ (email_idx domain_idx : Matcher.Index) (ncs_idx : Matcher.NcsIndex)
        (st : Matcher.MatchState) (d : Matcher.Dealer)
        (lst cs : List Matcher.Prospect) (c₁ c₂ : Matcher.Prospect),
      PyStr.lower (PyStr.strip (d.contact_email.getD "")) ≠ "" →
      email_idx.lookup (PyStr.lower (PyStr.strip (d.contact_email.getD ""))) = some lst →
      lst.filter (fun c => !(st.consumed.contains c.id)) = c₁ :: c₂ :: cs →
      Matcher.emailTier email_idx domain_idx ncs_idx st d =
        { st with
          ambiguous := st.ambiguous ++ [Matcher.ambRecord d "email_exact"
            (PyStr.lower (PyStr.strip (d.contact_email.getD ""))) (c₁ :: c₂ :: cs)]
          stats := { st.stats with email_ambiguous := st.stats.email_ambiguous + 1 } })
    ∧ (∀ (domain_idx : Matcher.Index) (ncs_idx : Matcher.NcsIndex)
        (st : Matcher.MatchState) (d : Matcher.Dealer) (dd : String)
        (lst cs : List Matcher.Prospect) (c₁ c₂ : Matcher.Prospect),
      Matcher.extract_domain d.dealer_website = some dd →
      domain_idx.lookup dd = some lst →
      lst.filter (fun c => !(st.consumed.contains c.id)) = c₁ :: c₂ :: cs →
      Matcher.domainTier domain_idx ncs_idx st d =
        { st with
          ambiguous := st.ambiguous ++
            [Matcher.ambRecord d "domain_exact" dd (c₁ :: c₂ :: cs)]
          stats := { st.stats with domain_ambiguous := st.stats.domain_ambiguous + 1 } })
    ∧ (∀ (ncs_idx : Matcher.NcsIndex) (st : Matcher.MatchState) (d : Matcher.Dealer)
        (dn ds : String) (lst cs : List Matcher.Prospect) (c₁ c₂ : Matcher.Prospect),
      Matcher.normalize_name (some (d.dealer_name.getD "")) = some dn →
      Matcher.normalize_state d.state = some ds →
      ¬ (PyStr.lower (PyStr.strip (d.city.getD "")) = "" ∨ ds = "") →
      ncs_idx.lookup (dn, PyStr.lower (PyStr.strip (d.city.getD "")), ds) = some lst →
      lst.filter (fun c => !(st.consumed.contains c.id)) = c₁ :: c₂ :: cs →
      Matcher.nameTier ncs_idx st d =
        { st with stats := { st.stats with
            name_city_state_ambiguous := st.stats.name_city_state_ambiguous + 1
            unmatched := st.stats.unmatched + 1 } }) := by
  refine ⟨?_, ?_, ?_, ?_⟩
  · intro phone_idx email_idx domain_idx ncs_idx st d dp lst cs c₁ c₂ h1 h2 h3
    simp only [Matcher.phoneTier, h1, h2, h3]
  · intro email_idx domain_idx ncs_idx st d lst cs c₁ c₂ h1 h2 h3
    simp only [Matcher.emailTier]
    rw [if_neg h1]
    simp only [h2, h3]
  · intro domain_idx ncs_idx st d dd lst cs c₁ c₂ h1 h2 h3
    simp only [Matcher.domainTier, h1, h2, h3]
  · intro ncs_idx st d dn ds lst cs c₁ c₂ h1 h2 h3 h4 h5
    simp only [Matcher.nameTier, h1, h2]
    rw [if_neg h3]
    simp only [h4, h5]

/-- C2 amended witness: a two-candidate phone collision records the
ambiguous row and stops; a two-candidate tier-4 collision only counts. -/
theorem ambiguity_recording_amended_witness :
    Matcher.phoneTier [("5550000000", [{ id := "q1", title := "A" }, { id := "q2", title := "B" }])]
        [] [] [] Matcher.initState { dealer_no := "D2", contact_phone := some "5550000000" } =
      { Matcher.initState with
        ambiguous := [Matcher.ambRecord { dealer_no := "D2", contact_phone := some "5550000000" }
          "phone_exact" "5550000000" [{ id := "q1", title := "A" }, { id := "q2", title := "B" }]]
        stats := { Matcher.initState.stats with phone_ambiguous := 1 } }
    ∧ Matcher.nameTier [(("beta", "ames", "IA"),
          [{ id := "q3", title := "Beta" }, { id := "q4", title := "Beta" }])]
        Matcher.initState
        { dealer_no := "D3", dealer_name := some "Beta", city := some "Ames",
          state := some "IA" } =
      { Matcher.initState with
        stats := { Matcher.initState.stats with
          name_city_state_ambiguous := 1
          unmatched := 1 } } := by
  constructor
  · exact ambiguity_recording_amended.1
      [("5550000000", [{ id := "q1", title := "A" }, { id := "q2", title := "B" }])] [] [] []
      Matcher.initState { dealer_no := "D2", contact_phone := some "5550000000" }
      "5550000000" [{ id := "q1", title := "A" }, { id := "q2", title := "B" }] []
      { id := "q1", title := "A" } { id := "q2", title := "B" } (by rfl) (by rfl) (by rfl)
  · exact ambiguity_recording_amended.2.2.2
      [(("beta", "ames", "IA"), [{ id := "q3", title := "Beta" }, { id := "q4", title := "Beta" }])]
      Matcher.initState
      { dealer_no := "D3", dealer_name := some "Beta", city := some "Ames", state := some "IA" }
      "beta" "IA" [{ id := "q3", title := "Beta" }, { id := "q4", title := "Beta" }] []
      { id := "q3", title := "Beta" } { id := "q4", title := "Beta" }
      (by rfl) (by rfl) (by decide) (by rfl) (by rfl)

/-- The run invariant of `run_matching`: the consumed set is exactly the
(reversed) list of prospect ids recorded as high-confidence matches, and no
id is recorded twice. -/
def Matcher.HCInv (st : Matcher.MatchState) : Prop :=
  st.consumed = (st.high_confidence.map (fun r => r.prospect_id)).reverse
  ∧ (st.high_confidence.map (fun r => r.prospect_id)).Nodup

/-- The invariant only looks at two fields. -/
lemma Matcher.HCInv_of_eq {st st' : Matcher.MatchState}
    (h1 : st'.high_confidence = st.high_confidence) (h2 : st'.consumed = st.consumed)
    (h : Matcher.HCInv st) : Matcher.HCInv st' := by
  unfold Matcher.HCInv at *
  rw [h1, h2]
  exact h

/-- Appending one high-confidence record whose prospect was not yet
consumed preserves the invariant. -/
lemma Matcher.HCInv_extend {st : Matcher.MatchState} (h : Matcher.HCInv st)
    (r : Matcher.MatchRecord) (stats : Matcher.Stats)
    (hnotin : r.prospect_id ∉ st.consumed) :
    Matcher.HCInv { st with
      high_confidence := st.high_confidence ++ [r]
      consumed := r.prospect_id :: st.consumed
      stats := stats } := by
  obtain ⟨h1, h2⟩ := h
  have hnm : r.prospect_id ∉ st.high_confidence.map (fun x => x.prospect_id) := by
    intro hm
    apply hnotin
    rw [h1, List.mem_reverse]
    exact hm
  constructor
  · simp only [List.map_append, List.map_cons, List.map_nil, List.reverse_append,
      List.reverse_cons, List.reverse_nil]
    simp [h1]
  · simp [List.nodup_append, h2, hnm]

/-- Tier 4 never touches the high-confidence list or the consumed set
(fuzzy matches deliberately do not consume). -/
lemma Matcher.nameTier_hc_consumed (ncs_idx : Matcher.NcsIndex) (st : Matcher.MatchState)
    (d : Matcher.Dealer) :
    (Matcher.nameTier ncs_idx st d).high_confidence = st.high_confidence
    ∧ (Matcher.nameTier ncs_idx st d).consumed = st.consumed := by
  refine ⟨?_, ?_⟩ <;>
    · simp only [Matcher.nameTier, Matcher.bumpUnmatched]
      repeat' split
      all_goals rfl

/-- A prospect surviving the un-consumed filter is not in the consumed set. -/
lemma Matcher.not_consumed_of_filter {st : Matcher.MatchState}
    {lst tail : List Matcher.Prospect} {p : Matcher.Prospect}
    (hc : lst.filter (fun c => !(st.consumed.contains c.id)) = p :: tail) :
    p.id ∉ st.consumed := by
  have hp : p ∈ lst.filter (fun c => !(st.consumed.contains c.id)) := by
    rw [hc]
    exact List.mem_cons_self p tail
  have := (List.mem_filter.mp hp).2
  simpa using this

/-- `nameTier` preserves the invariant. -/
lemma Matcher.nameTier_inv (ncs_idx : Matcher.NcsIndex) (st : Matcher.MatchState)
    (d : Matcher.Dealer) (h : Matcher.HCInv st) : Matcher.HCInv (Matcher.nameTier ncs_idx st d) :=
  Matcher.HCInv_of_eq (Matcher.nameTier_hc_consumed ncs_idx st d).1
    (Matcher.nameTier_hc_consumed ncs_idx st d).2 h

/-- `domainTier` preserves the invariant. -/
lemma Matcher.domainTier_inv (domain_idx : Matcher.Index) (ncs_idx : Matcher.NcsIndex)
    (st : Matcher.MatchState) (d : Matcher.Dealer) (h : Matcher.HCInv st) :
    Matcher.HCInv (Matcher.domainTier domain_idx ncs_idx st d) := by
  cases hdd : Matcher.extract_domain d.dealer_website with
  | none =>
    simp only [Matcher.domainTier, hdd]
    exact Matcher.nameTier_inv ncs_idx st d h
  | some dd =>
    cases hl : domain_idx.lookup dd with
    | none =>
      simp only [Matcher.domainTier, hdd, hl]
      exact Matcher.nameTier_inv ncs_idx st d h
    | some lst =>
      cases hc : lst.filter (fun c => !(st.consumed.contains c.id)) with
      | nil =>
        simp only [Matcher.domainTier, hdd, hl, hc]
        exact Matcher.nameTier_inv ncs_idx st d h
      | cons p tail =>
        cases tail with
        | nil =>
          simp only [Matcher.domainTier, hdd, hl, hc]
          exact Matcher.HCInv_extend h _ _ (Matcher.not_consumed_of_filter hc)
        | cons q tail2 =>
          simp only [Matcher.domainTier, hdd, hl, hc]
          exact h

/-- `emailTier` preserves the invariant. -/
lemma Matcher.emailTier_inv (email_idx domain_idx : Matcher.Index) (ncs_idx : Matcher.NcsIndex)
    (st : Matcher.MatchState) (d : Matcher.Dealer) (h : Matcher.HCInv st) :
    Matcher.HCInv (Matcher.emailTier email_idx domain_idx ncs_idx st d) := by
  by_cases he : PyStr.lower (PyStr.strip (d.contact_email.getD "")) = ""
  · simp only [Matcher.emailTier, if_pos he]
    exact Matcher.domainTier_inv domain_idx ncs_idx st d h
  · cases hl : email_idx.lookup (PyStr.lower (PyStr.strip (d.contact_email.getD ""))) with
    | none =>
      simp only [Matcher.emailTier, if_neg he, hl]
      exact Matcher.domainTier_inv domain_idx ncs_idx st d h
    | some lst =>
      cases hc : lst.filter (fun c => !(st.consumed.contains c.id)) with
      | nil =>
        simp only [Matcher.emailTier, if_neg he, hl, hc]
        exact Matcher.domainTier_inv domain_idx ncs_idx st d h
      | cons p tail =>
        cases tail with
        | nil =>
          simp only [Matcher.emailTier, if_neg he, hl, hc]
          exact Matcher.HCInv_extend h _ _ (Matcher.not_consumed_of_filter hc)
        | cons q tail2 =>
          simp only [Matcher.emailTier, if_neg he, hl, hc]
          exact h

/-- `phoneTier` (the whole per-dealer step) preserves the invariant. -/
lemma Matcher.phoneTier_inv (phone_idx email_idx domain_idx : Matcher.Index)
    (ncs_idx : Matcher.NcsIndex) (st : Matcher.MatchState) (d : Matcher.Dealer)
    (h : Matcher.HCInv st) :
    Matcher.HCInv (Matcher.phoneTier phone_idx email_idx domain_idx ncs_idx st d) := by
  cases hdp : Matcher.normalize_phone d.contact_phone with
  | none =>
    simp only [Matcher.phoneTier, hdp]
    exact Matcher.emailTier_inv email_idx domain_idx ncs_idx st d h
  | some dp =>
    cases hl : phone_idx.lookup dp with
    | none =>
      simp only [Matcher.phoneTier, hdp, hl]
      exact Matcher.emailTier_inv email_idx domain_idx ncs_idx st d h
    | some lst =>
      cases hc : lst.filter (fun c => !(st.consumed.contains c.id)) with
      | nil =>
        simp only [Matcher.phoneTier, hdp, hl, hc]
        exact Matcher.emailTier_inv email_idx domain_idx ncs_idx st d h
      | cons p tail =>
        cases tail with
        | nil =>
          simp only [Matcher.phoneTier, hdp, hl, hc]
          exact Matcher.HCInv_extend h _ _ (Matcher.not_consumed_of_filter hc)
        | cons q tail2 =>
          simp only [Matcher.phoneTier, hdp, hl, hc]
          exact h

/-- The invariant holds for the whole run. -/
lemma Matcher.runMatching_inv (allied : List Matcher.Dealer)
    (phone_idx email_idx domain_idx : Matcher.Index) (ncs_idx : Matcher.NcsIndex) :
    Matcher.HCInv (Matcher.runMatching allied phone_idx email_idx domain_idx ncs_idx) := by
  unfold Matcher.runMatching
  have step : ∀ (l : List Matcher.Dealer) (st : Matcher.MatchState), Matcher.HCInv st →
      Matcher.HCInv (l.foldl
        (fun s d => Matcher.phoneTier phone_idx email_idx domain_idx ncs_idx s d) st) := by
    intro l
    induction l with
    | nil => intro st h; simpa using h
    | cons d tl ih =>
      intro st h
      simp only [List.foldl_cons]
      exact ih _ (Matcher.phoneTier_inv phone_idx email_idx domain_idx ncs_idx st d h)
  exact step allied Matcher.initState ⟨rfl, List.nodup_nil⟩

/-- C3: over any matching run, the prospect ids recorded as high-confidence
matches are pairwise distinct (a pool entity resolved at tiers 1-3 is
consumed and excluded from every later candidate set, so it is never
reported twice); the consumed set consists of exactly those ids, so tier-4
fuzzy matches — whose step provably leaves the consumed set untouched — do
not consume. -/
theorem consumption_exclusivity (allied : List Matcher.Dealer)
    (phone_idx email_idx domain_idx : Matcher.Index) (ncs_idx : Matcher.NcsIndex) :
    ((Matcher.runMatching allied phone_idx email_idx domain_idx ncs_idx).high_confidence.map
        (fun r => r.prospect_id)).Nodup
    ∧ (Matcher.runMatching allied phone_idx email_idx domain_idx ncs_idx).consumed =
      ((Matcher.runMatching allied phone_idx email_idx domain_idx ncs_idx).high_confidence.map
        (fun r => r.prospect_id)).reverse
    ∧ (∀ (st : Matcher.MatchState) (d : Matcher.Dealer),
        (Matcher.nameTier ncs_idx st d).consumed = st.consumed) := by
  obtain ⟨h1, h2⟩ := Matcher.runMatching_inv allied phone_idx email_idx domain_idx ncs_idx
  exact ⟨h2, h1, fun st d => (Matcher.nameTier_hc_consumed ncs_idx st d).2⟩

/-- Keys present after a dict insert: the old keys plus possibly `k`. -/
lemma BuildProspect.mem_keys_insertOrReplace
    (l : List (String × BuildProspect.ExcelRow)) (k : String) (v : BuildProspect.ExcelRow)
    (a : String) :
    a ∈ (BuildProspect.insertOrReplace l k v).map Prod.fst ↔
      a ∈ l.map Prod.fst ∨ a = k := by
  induction l with
  | nil => simp [BuildProspect.insertOrReplace]
  | cons p t ih =>
    obtain ⟨k0, v0⟩ := p
    by_cases h : k0 = k
    · subst h
      simp [BuildProspect.insertOrReplace]
      tauto
    · simp [BuildProspect.insertOrReplace, h, ih]
      tauto

/-- Dict insert keeps the no-duplicate-keys invariant. -/
lemma BuildProspect.nodup_keys_insertOrReplace
    (l : List (String × BuildProspect.ExcelRow)) (k : String) (v : BuildProspect.ExcelRow)
    (h : (l.map Prod.fst).Nodup) :
    ((BuildProspect.insertOrReplace l k v).map Prod.fst).Nodup := by
  induction l with
  | nil => simp [BuildProspect.insertOrReplace]
  | cons p t ih =>
    obtain ⟨k0, v0⟩ := p
    simp only [List.map_cons, List.nodup_cons] at h
    by_cases hk : k0 = k
    · rw [BuildProspect.insertOrReplace, if_pos hk]
      simp only [List.map_cons, List.nodup_cons]
      exact h
    · rw [BuildProspect.insertOrReplace, if_neg hk]
      simp only [List.map_cons, List.nodup_cons]
      refine ⟨?_, ih h.2⟩
      rw [BuildProspect.mem_keys_insertOrReplace]
      rintro (hmem | rfl)
      · exact h.1 hmem
      · exact hk rfl

/-- C6 (a): the Excel loader output has pairwise distinct identifiers. -/
lemma BuildProspect.load_excel_nodup (rows : List BuildProspect.ExcelRow) :
    ((BuildProspect.load_excel rows).map Prod.fst).Nodup := by
  unfold BuildProspect.load_excel
  have gen : ∀ (rs : List BuildProspect.ExcelRow) (acc : List (String × BuildProspect.ExcelRow)),
      (acc.map Prod.fst).Nodup →
      ((rs.foldl
        (fun acc r =>
          match r.dealer_no with
          | none => acc
          | some s =>
            let dno := PyStr.strip s
            if dno = "" then acc else BuildProspect.insertOrReplace acc dno r) acc).map
        Prod.fst).Nodup := by
    intro rs
    induction rs with
    | nil => intro acc h; simpa using h
    | cons r t ih =>
      intro acc h
      simp only [List.foldl_cons]
      apply ih
      cases hr : r.dealer_no with
      | none => simpa using h
      | some s =>
        by_cases hs : PyStr.strip s = ""
        · simpa [hs] using h
        · simpa [hs] using BuildProspect.nodup_keys_insertOrReplace acc (PyStr.strip s) r h
  exact gen (BuildProspect.keptRows rows) [] (by simp)

/-- C6 (b): the dedup stage keeps, for every key value, exactly the first
row carrying it. -/
lemma BuildProspect.dropDupAux_filter (k : Option String) :
    ∀ (rows : List BuildProspect.ExcelRow) (seen : List (Option String)),
      (BuildProspect.dropDupAux seen rows).filter (fun r => r.dealer_no == k) =
        if seen.contains k then [] else
          (rows.filter (fun r => r.dealer_no == k)).take 1 := by
  intro rows
  induction rows with
  | nil =>
    intro seen
    by_cases hseen : seen.contains k = true <;> simp [BuildProspect.dropDupAux, hseen]
  | cons r rs ih =>
    intro seen
    by_cases hk : r.dealer_no = k
    · subst hk
      by_cases hseen : r.dealer_no ∈ seen
      · simp [BuildProspect.dropDupAux, hseen, ih, List.filter_cons]
      · simp [BuildProspect.dropDupAux, hseen, ih, List.filter_cons]
    · have hbeq : (r.dealer_no == k) = false := by
        simpa using hk
      have hne : ¬ (k = r.dealer_no) := fun hkk => hk hkk.symm
      by_cases hseen : r.dealer_no ∈ seen
      · simp [BuildProspect.dropDupAux, hseen, ih, List.filter_cons, hbeq]
      · simp [BuildProspect.dropDupAux, hseen, ih, List.filter_cons, hbeq, hne]

/-- C6 (c): the API CSV loader keeps every row with a usable key — no
dedup. -/
lemma BuildAllied.load_api_csv_length (rows : List BuildAllied.ApiRow) :
    (BuildAllied.load_api_csv rows).length =
      rows.countP (fun r => (BuildAllied.safe_str r.dealer_no).isSome) := by
  induction rows with
  | nil => rfl
  | cons r t ih =>
    simp only [BuildAllied.load_api_csv, List.filterMap_cons] at *
    cases h : BuildAllied.safe_str r.dealer_no with
    | none => simp [h, ih, List.countP_cons]
    | some dno => simp [h, ih, List.countP_cons]

/-- Two API CSV rows sharing the dealer number `"123"`. -/
def c6rows : List BuildAllied.ApiRow :=
  [{ dealer_no := some "123", dealer_name := some "First Co" },
   { dealer_no := some "123", dealer_name := some "Second Co" }]

/-- C6 counterexample: `load_api_csv` performs no deduplication — two rows
sharing the key `"123"` both survive loading, so the output carries
duplicate identifiers, refuting the claim for this loader. -/
theorem api_loader_keeps_duplicate_keys :
    ((BuildAllied.load_api_csv c6rows).map (fun r => r.dealer_no)) = ["123", "123"]
    ∧ (BuildAllied.load_api_csv c6rows).length = 2
    ∧ ¬ ((BuildAllied.load_api_csv c6rows).map (fun r => r.dealer_no)).Nodup := by
  refine ⟨rfl, rfl, ?_⟩
  have h : ((BuildAllied.load_api_csv c6rows).map (fun r => r.dealer_no)) = ["123", "123"] := rfl
  rw [h]
  decide

/-- C6 amended: the first-occurrence dedup contract holds for the Excel
loader `load_excel` — for every key, exactly the first row carrying it
survives the dedup stage, and the final output maps identifiers without
duplicates — while `load_api_csv` keeps every row whose key is usable and
therefore does not deduplicate at all. -/
theorem loader_dedup_amended :
    (∀ rows : List BuildProspect.ExcelRow,
      ((BuildProspect.load_excel rows).map Prod.fst).Nodup)
    ∧ (∀ (rows : List BuildProspect.ExcelRow) (k : Option String),
      (BuildProspect.drop_duplicates rows).filter (fun r => r.dealer_no == k) =
        (rows.filter (fun r => r.dealer_no == k)).take 1)
    ∧ (∀ rows : List BuildAllied.ApiRow,
      (BuildAllied.load_api_csv rows).length =
        rows.countP (fun r => (BuildAllied.safe_str r.dealer_no).isSome)) := by
  refine ⟨BuildProspect.load_excel_nodup, ?_, BuildAllied.load_api_csv_length⟩
  intro rows k
  unfold BuildProspect.drop_duplicates
  rw [BuildProspect.dropDupAux_filter k rows []]
  simp
